import Mathlib

/-!
Verification of the `map2` concurrency-controlled 2D grid (sources:
`src/map2.c` and the header `map2.h`, present as `src/unnamed/part_001`).

The grid is a fixed table of fixed-size records guarded per *partition*
(a lock key shared by a subset of rows).  We embed the data model
(`map2_t`, the `MAP2` creation macro), the partition selector
(`map2_key`), the release path (`__map2_drop`), and the acquire path
(`__map2_take`) together with the `map2_readwrite_trycatch` wrapper
macro.  Memory is a flat byte store `Nat → Nat`; pointers are addresses
(`Nat`, with `0` playing the role of `NULL`); the 32-bit pointer cast of
`map2_ptr` is modelled with an explicit `% 2 ^ 32`.  The outcome of the
RTOS primitive `os_mut_wait` is environment-determined, so it enters the
model as an oracle argument `waitOk`; the trace record returned by the
embedded `__map2_take` records which timeout value was forwarded to
`os_mut_wait`, whether the mutex was acquired, and whether it was
released again (via `__map2_drop`) before returning.
-/

/-- Embedding of the C struct `map2_t` from `map2.h`.  `data` and
`mutAddr` are the `data` / `mut` pointer fields as addresses (`mut` is a
reserved word in Lean, hence the rename); the integer fields keep their
C names.  -/
structure map2_t where
  data : Nat
  rows : Int
  columns : Int
  data_size : Int
  field_size : Int
  mutAddr : Nat
  keys : Int

/-- Embedding of the C enum `map2_operation_t`. -/
inductive map2_operation_t where
  | MAP2_OP_READONLY
  | MAP2_OP_READWRITE
deriving DecidableEq

/-- `MAP2_NKEYS_1` from `map2.h`. -/
def MAP2_NKEYS_1 : Int := 1

/-- `MAP2_NKEYS_2` from `map2.h`. -/
def MAP2_NKEYS_2 : Int := 2

/-- `MAP2_NKEYS_3` from `map2.h`. -/
def MAP2_NKEYS_3 : Int := 3

/-- Modelled from the spec: `UART_INSTANCES` is a configuration constant
from a header outside this repository.  The spec (and the code's own
table of partitions: even channels / odd channels) fixes the even/odd
rule, i.e. `UART_INSTANCES == 2`. -/
def UART_INSTANCES : Int := 2

/-- Embedding of `map2_ptr(var, pos, type) = (type*)((uint32_t)var + pos)`:
the pointer `var` is cast to `uint32_t` and the (signed) offset `pos` is
added with 32-bit wraparound. -/
def map2_ptr (var : Nat) (pos : Int) : Nat :=
  (((var : Int) + pos) % (2 ^ 32)).toNat

/-- Embedding of `map2_pos(m, row, column) = ((column + (m->columns * row)) * m->field_size)`:
the row-major byte offset of a cell. -/
def map2_pos (m : map2_t) (row column : Int) : Int :=
  (column + m.columns * row) * m.field_size

/-- Embedding of the `MAP2(data_type, mapname, nrows, ncolumns, nkeys)`
creation macro from `map2.h`: it allocates a 2D array, so
`data_size = sizeof(data_type[nrows][ncolumns]) = nrows * ncolumns * field_size`
and `field_size = sizeof(data_type)`. -/
def MAP2 (dataAddr : Nat) (field_size nrows ncolumns nkeys : Int) (mutAddr : Nat) : map2_t :=
  { data := dataAddr
    rows := nrows
    columns := ncolumns
    data_size := nrows * ncolumns * field_size
    field_size := field_size
    mutAddr := mutAddr
    keys := nkeys }

/-- Embedding of `map2_key` from `map2.c`.  A NULL `m` is `none`.
`SLOT_CNT` and `SLOT_CH` are configuration constants from a header
outside this repository (their product is the "expansion" threshold where
the secondary hardware region begins); they are taken as parameters.
C's `%` on `int` truncates, hence `Int.tmod`. -/
def map2_key (SLOT_CNT SLOT_CH : Int) (m : Option map2_t) (row : Int) : Int :=
  match m with
  | none => 0
  | some m =>
    if row < 0 ∨ m.rows ≤ row then 0
    else if m.keys = MAP2_NKEYS_1 then 0
    else if m.keys = MAP2_NKEYS_3 ∧ SLOT_CNT * SLOT_CH ≤ row then 2
    else if Int.tmod row UART_INSTANCES = 0 then 0 else 1

/-- Embedding of `__map2_drop` from `map2.c`.  The returned boolean
records whether `os_mut_release` was performed: the three argument
guards (`MAP2_ASSERT`) return early without releasing. -/
def __map2_drop (m : Option map2_t) (row column key : Int) : Bool :=
  match m with
  | none => false
  | some m =>
    if row < 0 ∨ m.rows ≤ row ∨ column < 0 ∨ m.columns ≤ column then false
    else if key < 0 ∨ m.keys ≤ key then false
    else true

/-- Byte-level model of `memcpy(dst, src, n)` over a flat memory. -/
def memcpy (mem : Nat → Nat) (dst src n : Nat) : Nat → Nat :=
  fun a => if dst ≤ a ∧ a < dst + n then mem (src + (a - dst)) else mem a

/-- Single-byte store, modelling a later write (by the caller to its
out-buffer, or by another task to the grid). -/
def store (mem : Nat → Nat) (a v : Nat) : Nat → Nat :=
  fun b => if b = a then v else mem b

/-- Observable trace of one `__map2_take` call: the returned pointer
(`0` = `NULL`), the memory after the call, whether `os_mut_wait` was
invoked and with which timeout value, whether the mutex was acquired,
and whether it was released again (via `__map2_drop`) before returning. -/
structure take_result where
  ret : Nat
  mem : Nat → Nat
  waitCalled : Bool
  waitTout : Nat
  acquired : Bool
  released : Bool

/-- The call left the partition mutex held iff it acquired it and did
not release it before returning. -/
def take_result.heldAtReturn (t : take_result) : Bool :=
  t.acquired && !t.released

/-- Embedding of `__map2_take` from `map2.c`.  `waitOk` is the oracle
for the result of `os_mut_wait` (`false` = `OS_R_TMO`).  The three
`MAP2_ASSERT` guards, the sentinel decrement `if (tout >= 0xFFFF) tout -= 1`,
the timeout early return, the `MAP2_OP_READONLY` copy
(`if (dst != NULL && src != NULL) memcpy(dst, src, m->field_size)`),
the read-write aliasing `dst = src`, and the final
`if (dst == NULL || op == MAP2_OP_READONLY) __map2_drop(...)` are each
translated branch for branch. -/
def __map2_take (m : Option map2_t) (row column key : Int) (dst : Nat)
    (tout : Nat) (op : map2_operation_t) (mem : Nat → Nat) (waitOk : Bool) :
    take_result :=
  match m with
  | none => ⟨0, mem, false, 0, false, false⟩
  | some mm =>
    if row < 0 ∨ mm.rows ≤ row ∨ column < 0 ∨ mm.columns ≤ column then
      ⟨0, mem, false, 0, false, false⟩
    else if key < 0 ∨ mm.keys ≤ key then
      ⟨0, mem, false, 0, false, false⟩
    else
      let tout2 := if 0xFFFF ≤ tout then tout - 1 else tout
      if !waitOk then
        ⟨0, mem, true, tout2, false, false⟩
      else
        let src := map2_ptr mm.data (map2_pos mm row column)
        if op = map2_operation_t.MAP2_OP_READONLY then
          let mem2 := if dst ≠ 0 ∧ src ≠ 0 then memcpy mem dst src mm.field_size.toNat else mem
          ⟨dst, mem2, true, tout2, true, __map2_drop (some mm) row column key⟩
        else
          if src = 0 then
            ⟨0, mem, true, tout2, true, __map2_drop (some mm) row column key⟩
          else
            ⟨src, mem, true, tout2, true, false⟩

/-- Observable trace of one `map2_readwrite_trycatch` expansion: whether
the success block `fnc` ran, whether the lock was held while it ran, and
whether it is still held after the macro finishes. -/
structure rw_trace where
  ranFnc : Bool
  heldDuringFnc : Bool
  heldAtEnd : Bool
  retPtr : Nat

/-- Embedding of the `map2_readwrite_trycatch` macro from `map2.h`:
`dst = __map2_take(..., MAP2_OP_READWRITE)`; on non-NULL result the
success block runs and only then `__map2_drop` releases the lock; on a
NULL result the error block runs and the lock state is whatever
`__map2_take` left. -/
def map2_readwrite_trycatch (m : Option map2_t) (row column key : Int) (dst : Nat)
    (tout : Nat) (mem : Nat → Nat) (waitOk : Bool) : rw_trace :=
  let t := __map2_take m row column key dst tout map2_operation_t.MAP2_OP_READWRITE mem waitOk
  if t.ret ≠ 0 then
    { ranFnc := true
      heldDuringFnc := t.heldAtReturn
      heldAtEnd := t.heldAtReturn && !(__map2_drop m row column key)
      retPtr := t.ret }
  else
    { ranFnc := false
      heldDuringFnc := false
      heldAtEnd := t.heldAtReturn
      retPtr := 0 }

/-- Embedding of `map2_item_row(m, item, type) = (item - (type*)m->data) / m->columns`:
`itemIdx` models the pointer difference `item - data` in element units;
C's `/` on `int` truncates, hence `Int.tdiv`. -/
def map2_item_row (m : map2_t) (itemIdx : Int) : Int :=
  Int.tdiv itemIdx m.columns

/-- Embedding of `map2_item_column(m, item, type) = (item - (type*)m->data) % m->columns`. -/
def map2_item_column (m : map2_t) (itemIdx : Int) : Int :=
  Int.tmod itemIdx m.columns

/-- A byte inside the destination range of a `memcpy` holds the
corresponding source byte. -/
theorem memcpy_inside (mem : Nat → Nat) (dst src n i : Nat) (h : i < n) :
    memcpy mem dst src n (dst + i) = mem (src + i) := by
  unfold memcpy
  rw [if_pos ⟨Nat.le_add_right _ _, by omega⟩, Nat.add_sub_cancel_left]

/-- A byte outside the destination range of a `memcpy` is unchanged. -/
theorem memcpy_outside (mem : Nat → Nat) (dst src n a : Nat)
    (h : a < dst ∨ dst + n ≤ a) : memcpy mem dst src n a = mem a := by
  unfold memcpy
  rw [if_neg (by omega)]

/-- A store at one address leaves every other address unchanged. -/
theorem store_other (mem : Nat → Nat) (a v b : Nat) (h : b ≠ a) :
    store mem a v b = mem b := by
  unfold store
  rw [if_neg h]

/-- With validated arguments, `__map2_drop` performs the release. -/
theorem __map2_drop_valid (m : map2_t) (row column key : Int)
    (h1 : ¬(row < 0 ∨ m.rows ≤ row ∨ column < 0 ∨ m.columns ≤ column))
    (h2 : ¬(key < 0 ∨ m.keys ≤ key)) :
    __map2_drop (some m) row column key = true := by
  simp only [__map2_drop]
  rw [if_neg h1, if_neg h2]

/-- Closed form of a successful read-only `__map2_take`: with validated
arguments, a successful wait, and non-NULL destination and cell
pointers, the call returns `dst`, the memory after the call is the
`memcpy` of the cell into `dst`, `os_mut_wait` was invoked with the
decremented timeout, and the mutex was acquired and released again. -/
theorem __map2_take_readonly_spec (m : map2_t) (row column key : Int)
    (dst : Nat) (tout : Nat) (mem : Nat → Nat)
    (hval : ¬(row < 0 ∨ m.rows ≤ row ∨ column < 0 ∨ m.columns ≤ column))
    (hkey : ¬(key < 0 ∨ m.keys ≤ key))
    (hdst : dst ≠ 0)
    (hsrc : map2_ptr m.data (map2_pos m row column) ≠ 0) :
    __map2_take (some m) row column key dst tout
        map2_operation_t.MAP2_OP_READONLY mem true =
      ⟨dst, memcpy mem dst (map2_ptr m.data (map2_pos m row column)) m.field_size.toNat,
        true, (if 0xFFFF ≤ tout then tout - 1 else tout), true, true⟩ := by
  have hdrop := __map2_drop_valid m row column key hval hkey
  simp only [__map2_take, if_neg hval, if_neg hkey, Bool.not_true, reduceIte,
    if_pos (And.intro hdst hsrc), hdrop]
  rfl

/-- Closed form of a successful read-write `__map2_take`: with validated
arguments, a successful wait, and a non-NULL cell pointer, the call
returns the cell pointer, leaves memory unchanged, and keeps the mutex
(acquired, not released). -/
theorem __map2_take_readwrite_spec (m : map2_t) (row column key : Int)
    (dst : Nat) (tout : Nat) (mem : Nat → Nat)
    (hval : ¬(row < 0 ∨ m.rows ≤ row ∨ column < 0 ∨ m.columns ≤ column))
    (hkey : ¬(key < 0 ∨ m.keys ≤ key))
    (hsrc : map2_ptr m.data (map2_pos m row column) ≠ 0) :
    __map2_take (some m) row column key dst tout
        map2_operation_t.MAP2_OP_READWRITE mem true =
      ⟨map2_ptr m.data (map2_pos m row column), mem,
        true, (if 0xFFFF ≤ tout then tout - 1 else tout), true, false⟩ := by
  simp only [__map2_take, if_neg hval, if_neg hkey, Bool.not_true, reduceIte,
    if_neg hsrc]
  rfl

/-- C1: the claim says the value forwarded to `os_mut_wait` is never the
infinite-wait sentinel `0xFFFF`; but at `tout = 0x10000` the decrement
`tout -= 1` lands exactly on the sentinel, so the forwarded value IS
`0xFFFF` (and `os_mut_wait` is indeed invoked), contradicting the claim
and the code's own comment; a request of exactly `0xFFFF` is forwarded
as `0xFFFE` as the claim states. -/
theorem C1_sentinel_forwarded_at_0x10000 :
    (__map2_take (some (MAP2 1000 4 2 3 1 2000)) 0 0 0 5000 0x10000
        map2_operation_t.MAP2_OP_READONLY (fun a => a) true).waitTout = 0xFFFF ∧
    (__map2_take (some (MAP2 1000 4 2 3 1 2000)) 0 0 0 5000 0x10000
        map2_operation_t.MAP2_OP_READONLY (fun a => a) true).waitCalled = true ∧
    (__map2_take (some (MAP2 1000 4 2 3 1 2000)) 0 0 0 5000 0xFFFF
        map2_operation_t.MAP2_OP_READONLY (fun a => a) true).waitTout = 0xFFFE := by
  refine ⟨by decide, by decide, by decide⟩

/-- C2: whenever `__map2_take` returns NULL — invalid arguments, lock
timeout, or a NULL source/destination pointer — the partition mutex is
not left held by the call: it was either never acquired or released
again via `__map2_drop` before returning. -/
theorem C2_null_result_leaves_lock_free
    (m : Option map2_t) (row column key : Int) (dst : Nat) (tout : Nat)
    (op : map2_operation_t) (mem : Nat → Nat) (waitOk : Bool)
    (h : (__map2_take m row column key dst tout op mem waitOk).ret = 0) :
    (__map2_take m row column key dst tout op mem waitOk).heldAtReturn = false := by
  cases m with
  | none => rfl
  | some mm =>
    by_cases h1 : row < 0 ∨ mm.rows ≤ row ∨ column < 0 ∨ mm.columns ≤ column
    · simp [__map2_take, h1, take_result.heldAtReturn]
    · by_cases h2 : key < 0 ∨ mm.keys ≤ key
      · simp [__map2_take, h1, h2, take_result.heldAtReturn]
      · have hdrop := __map2_drop_valid mm row column key h1 h2
        cases waitOk with
        | false => simp [__map2_take, h1, h2, take_result.heldAtReturn]
        | true =>
          cases op with
          | MAP2_OP_READONLY =>
            simp [__map2_take, h1, h2, take_result.heldAtReturn, hdrop]
          | MAP2_OP_READWRITE =>
            by_cases hs : map2_ptr mm.data (map2_pos mm row column) = 0
            · simp [__map2_take, h1, h2, hs, take_result.heldAtReturn, hdrop]
            · exfalso
              rw [__map2_take_readwrite_spec mm row column key dst tout mem h1 h2 hs] at h
              exact hs h

/-- Witness for C2 at a concrete failing input (NULL map pointer). -/
theorem C2_witness :
    (__map2_take none 0 0 0 0 0 map2_operation_t.MAP2_OP_READONLY
        (fun _ => 0) true).heldAtReturn = false :=
  C2_null_result_leaves_lock_free none 0 0 0 0 0
    map2_operation_t.MAP2_OP_READONLY (fun _ => 0) true rfl

/-- C3: a NULL map or an out-of-range row, column or key makes
`__map2_take` return NULL without ever invoking `os_mut_wait` and
without touching a single byte of memory (neither the grid buffer nor
the caller's destination buffer). -/
theorem C3_invalid_arguments_reject_without_lock_or_memory
    (m : Option map2_t) (row column key : Int) (dst : Nat) (tout : Nat)
    (op : map2_operation_t) (mem : Nat → Nat) (waitOk : Bool)
    (h : ∀ mm, m = some mm →
      row < 0 ∨ mm.rows ≤ row ∨ column < 0 ∨ mm.columns ≤ column ∨
      key < 0 ∨ mm.keys ≤ key) :
    (__map2_take m row column key dst tout op mem waitOk).ret = 0 ∧
    (__map2_take m row column key dst tout op mem waitOk).waitCalled = false ∧
    (__map2_take m row column key dst tout op mem waitOk).mem = mem := by
  cases m with
  | none => exact ⟨rfl, rfl, rfl⟩
  | some mm =>
    have hd := h mm rfl
    by_cases h1 : row < 0 ∨ mm.rows ≤ row ∨ column < 0 ∨ mm.columns ≤ column
    · simp [__map2_take, h1]
    · by_cases h2 : key < 0 ∨ mm.keys ≤ key
      · simp [__map2_take, h1, h2]
      · exact absurd hd (by tauto)

/-- Witness for C3 at a concrete failing input (`row = -1`). -/
theorem C3_witness :
    (__map2_take (some (MAP2 1000 4 2 3 1 2000)) (-1) 0 0 5000 10
        map2_operation_t.MAP2_OP_READONLY (fun a => a) true).ret = 0 ∧
    (__map2_take (some (MAP2 1000 4 2 3 1 2000)) (-1) 0 0 5000 10
        map2_operation_t.MAP2_OP_READONLY (fun a => a) true).waitCalled = false := by
  have h := C3_invalid_arguments_reject_without_lock_or_memory
    (some (MAP2 1000 4 2 3 1 2000)) (-1) 0 0 5000 10
    map2_operation_t.MAP2_OP_READONLY (fun a => a) true
    (fun _ _ => Or.inl (by decide))
  exact ⟨h.1, h.2.1⟩

/-- C4: for a valid row, `map2_key` returns 0 for a 1-key map; `row % 2`
for a 2-key map; and for a 3-key map it returns 2 at or beyond the
expansion threshold `SLOT_CNT * SLOT_CH` and falls back to the even/odd
rule (`row % 2`) below it. -/
theorem C4_key_selection (SLOT_CNT SLOT_CH : Int) (m : map2_t) (row : Int)
    (h0 : 0 ≤ row) (h1 : row < m.rows) :
    (m.keys = 1 → map2_key SLOT_CNT SLOT_CH (some m) row = 0) ∧
    (m.keys = 2 → map2_key SLOT_CNT SLOT_CH (some m) row = row % 2) ∧
    (m.keys = 3 → SLOT_CNT * SLOT_CH ≤ row →
      map2_key SLOT_CNT SLOT_CH (some m) row = 2) ∧
    (m.keys = 3 → row < SLOT_CNT * SLOT_CH →
      map2_key SLOT_CNT SLOT_CH (some m) row = row % 2) := by
  have hrow : ¬(row < 0 ∨ m.rows ≤ row) := by omega
  have htm : Int.tmod row UART_INSTANCES = row % 2 :=
    Int.tmod_eq_emod h0 (by decide)
  refine ⟨?_, ?_, ?_, ?_⟩
  · intro hk
    simp [map2_key, hrow, MAP2_NKEYS_1, hk]
  · intro hk
    rw [map2_key, if_neg hrow, if_neg (by rw [hk]; decide),
      if_neg (by rw [hk]; simp [MAP2_NKEYS_3]), htm]
    split_ifs with hz
    · omega
    · omega
  · intro hk hthr
    rw [map2_key, if_neg hrow, if_neg (by rw [hk]; decide),
      if_pos ⟨by rw [hk]; rfl, hthr⟩]
  · intro hk hthr
    rw [map2_key, if_neg hrow, if_neg (by rw [hk]; decide),
      if_neg (by rw [hk]; simp [MAP2_NKEYS_3]; omega), htm]
    split_ifs with hz
    · omega
    · omega

/-- Witness for C4: a 2-key map with row 5 selects partition `5 % 2`. -/
theorem C4_witness :
    map2_key 2 3 (some (MAP2 1000 4 100 7 2 2000)) 5 = 5 % 2 :=
  (C4_key_selection 2 3 (MAP2 1000 4 100 7 2 2000) 5
    (by decide) (by decide)).2.1 rfl

/-- C5 counterexample: for the invalid keys value 4 (not 1, 2 or 3) and
the valid row 1, `map2_key` does NOT return the claimed defensive 0 —
it falls through to the even/odd rule and returns 1. -/
theorem C5_counterexample :
    ¬(map2_key 4 3 (some (MAP2 1000 4 2 1 4 2000)) 1 = 0) := by
  decide

/-- C5 amended: an invalid row (negative or at least `rows`) or a NULL
map makes `map2_key` return the defensive fallback 0; but an invalid
keys value does not: for any valid row and a keys value other than 1
and 3 the function falls through to the even/odd rule and returns
`row % 2`. -/
theorem C5_fallback_amended (SLOT_CNT SLOT_CH : Int) :
    (∀ (m : Option map2_t) (row : Int),
      (∀ mm, m = some mm → row < 0 ∨ mm.rows ≤ row) →
      map2_key SLOT_CNT SLOT_CH m row = 0) ∧
    (∀ (mm : map2_t) (row : Int), 0 ≤ row → row < mm.rows →
      mm.keys ≠ MAP2_NKEYS_1 → mm.keys ≠ MAP2_NKEYS_3 →
      map2_key SLOT_CNT SLOT_CH (some mm) row = row % 2) := by
  constructor
  · intro m row h
    cases m with
    | none => rfl
    | some mm =>
      have hd := h mm rfl
      simp [map2_key, hd]
  · intro mm row h0 h1 hk1 hk3
    have hrow : ¬(row < 0 ∨ mm.rows ≤ row) := by omega
    have htm : Int.tmod row UART_INSTANCES = row % 2 :=
      Int.tmod_eq_emod h0 (by decide)
    rw [map2_key, if_neg hrow, if_neg hk1,
      if_neg (by simp [hk3]), htm]
    split_ifs with hz
    · omega
    · omega

/-- Witness for C5 amended: an out-of-range row returns 0, and the
invalid keys value 4 with valid row 1 returns `1 % 2`. -/
theorem C5_witness :
    map2_key 4 3 (some (MAP2 1000 4 2 1 4 2000)) (-2) = 0 ∧
    map2_key 4 3 (some (MAP2 1000 4 2 1 4 2000)) 1 = 1 % 2 := by
  have h := C5_fallback_amended 4 3
  exact ⟨h.1 (some (MAP2 1000 4 2 1 4 2000)) (-2) (fun _ _ => Or.inl (by decide)),
    h.2 (MAP2 1000 4 2 1 4 2000) 1 (by decide) (by decide) (by decide) (by decide)⟩

/-- C6: a successful read-only `__map2_take` (valid indices, wait
succeeded, non-NULL destination and cell pointers) returns `dst`, copies
exactly `field_size` bytes of the cell at row-major offset
`(column + columns * row) * field_size` into the destination buffer
(every other byte of memory is untouched), and unconditionally releases
the partition lock via `__map2_drop` before returning. -/
theorem C6_readonly_copies_then_releases (m : map2_t) (row column key : Int)
    (dst : Nat) (tout : Nat) (mem : Nat → Nat)
    (hr0 : 0 ≤ row) (hr1 : row < m.rows)
    (hc0 : 0 ≤ column) (hc1 : column < m.columns)
    (hk0 : 0 ≤ key) (hk1 : key < m.keys)
    (hdst : dst ≠ 0)
    (hsrc : map2_ptr m.data (map2_pos m row column) ≠ 0) :
    (__map2_take (some m) row column key dst tout
        map2_operation_t.MAP2_OP_READONLY mem true).ret = dst ∧
    (∀ i, i < m.field_size.toNat →
      (__map2_take (some m) row column key dst tout
          map2_operation_t.MAP2_OP_READONLY mem true).mem (dst + i) =
        mem (map2_ptr m.data ((column + m.columns * row) * m.field_size) + i)) ∧
    (∀ a, a < dst ∨ dst + m.field_size.toNat ≤ a →
      (__map2_take (some m) row column key dst tout
          map2_operation_t.MAP2_OP_READONLY mem true).mem a = mem a) ∧
    (__map2_take (some m) row column key dst tout
        map2_operation_t.MAP2_OP_READONLY mem true).released = true ∧
    (__map2_take (some m) row column key dst tout
        map2_operation_t.MAP2_OP_READONLY mem true).heldAtReturn = false := by
  have hval : ¬(row < 0 ∨ m.rows ≤ row ∨ column < 0 ∨ m.columns ≤ column) := by omega
  have hkey : ¬(key < 0 ∨ m.keys ≤ key) := by omega
  rw [__map2_take_readonly_spec m row column key dst tout mem hval hkey hdst hsrc]
  refine ⟨rfl, ?_, ?_, rfl, rfl⟩
  · intro i hi
    exact memcpy_inside mem dst (map2_ptr m.data (map2_pos m row column))
      m.field_size.toNat i hi
  · intro a ha
    exact memcpy_outside mem dst (map2_ptr m.data (map2_pos m row column))
      m.field_size.toNat a ha

/-- Witness for C6 on a concrete 2x3 grid of 4-byte cells. -/
theorem C6_witness :
    (__map2_take (some (MAP2 1000 4 2 3 1 2000)) 1 2 0 5000 10
        map2_operation_t.MAP2_OP_READONLY (fun a => a % 251) true).ret = 5000 ∧
    (__map2_take (some (MAP2 1000 4 2 3 1 2000)) 1 2 0 5000 10
        map2_operation_t.MAP2_OP_READONLY (fun a => a % 251) true).mem (5000 + 1) = 17 ∧
    (__map2_take (some (MAP2 1000 4 2 3 1 2000)) 1 2 0 5000 10
        map2_operation_t.MAP2_OP_READONLY (fun a => a % 251) true).released = true := by
  have h := C6_readonly_copies_then_releases (MAP2 1000 4 2 3 1 2000) 1 2 0 5000 10
    (fun a => a % 251) (by decide) (by decide) (by decide) (by decide) (by decide)
    (by decide) (by decide) (by decide)
  exact ⟨h.1, (h.2.1 1 (by decide)).trans (by decide), h.2.2.2.1⟩

/-- C7: after a successful read-only access, the out-buffer holds a
snapshot, not an alias: if the caller's out-buffer is disjoint from the
grid buffer, then a later single-byte write into the out-buffer changes
no byte of the grid, and a later single-byte write into the grid (e.g.
by another task) leaves every already-copied out-buffer byte equal to
the original cell byte. -/
theorem C7_readonly_snapshot_not_alias (m : map2_t) (row column key : Int)
    (dst : Nat) (tout : Nat) (mem : Nat → Nat)
    (hr0 : 0 ≤ row) (hr1 : row < m.rows)
    (hc0 : 0 ≤ column) (hc1 : column < m.columns)
    (hk0 : 0 ≤ key) (hk1 : key < m.keys)
    (hdst : dst ≠ 0)
    (hsrc : map2_ptr m.data (map2_pos m row column) ≠ 0)
    (hdisj : ∀ a, dst ≤ a → a < dst + m.field_size.toNat →
      ¬(m.data ≤ a ∧ a < m.data + m.data_size.toNat)) :
    (∀ a v g, dst ≤ a → a < dst + m.field_size.toNat →
      m.data ≤ g → g < m.data + m.data_size.toNat →
      store ((__map2_take (some m) row column key dst tout
          map2_operation_t.MAP2_OP_READONLY mem true).mem) a v g =
        (__map2_take (some m) row column key dst tout
          map2_operation_t.MAP2_OP_READONLY mem true).mem g) ∧
    (∀ a v i, m.data ≤ a → a < m.data + m.data_size.toNat →
      i < m.field_size.toNat →
      store ((__map2_take (some m) row column key dst tout
          map2_operation_t.MAP2_OP_READONLY mem true).mem) a v (dst + i) =
        mem (map2_ptr m.data ((column + m.columns * row) * m.field_size) + i)) := by
  have hval : ¬(row < 0 ∨ m.rows ≤ row ∨ column < 0 ∨ m.columns ≤ column) := by omega
  have hkey : ¬(key < 0 ∨ m.keys ≤ key) := by omega
  constructor
  · intro a v g ha1 ha2 hg1 hg2
    refine store_other _ a v g ?_
    intro hga
    exact hdisj a ha1 ha2 (hga ▸ ⟨hg1, hg2⟩)
  · intro a v i ha1 ha2 hi
    have hne : dst + i ≠ a := by
      intro hia
      exact hdisj (dst + i) (Nat.le_add_right _ _) (by omega) (hia ▸ ⟨ha1, ha2⟩)
    rw [store_other _ a v (dst + i) hne,
      __map2_take_readonly_spec m row column key dst tout mem hval hkey hdst hsrc]
    exact memcpy_inside mem dst (map2_ptr m.data (map2_pos m row column))
      m.field_size.toNat i hi

/-- Witness for C7: grid at addresses 1000..1023, out-buffer at
5000..5003; a write into the out-buffer does not change grid byte 1005,
and a write into the grid leaves the copied byte equal to the original
cell byte. -/
theorem C7_witness :
    store ((__map2_take (some (MAP2 1000 4 2 3 1 2000)) 1 2 0 5000 10
        map2_operation_t.MAP2_OP_READONLY (fun a => a % 251) true).mem) 5002 99 1005 =
      (__map2_take (some (MAP2 1000 4 2 3 1 2000)) 1 2 0 5000 10
        map2_operation_t.MAP2_OP_READONLY (fun a => a % 251) true).mem 1005 ∧
    store ((__map2_take (some (MAP2 1000 4 2 3 1 2000)) 1 2 0 5000 10
        map2_operation_t.MAP2_OP_READONLY (fun a => a % 251) true).mem) 1001 99 (5000 + 1) =
      17 := by
  have h := C7_readonly_snapshot_not_alias (MAP2 1000 4 2 3 1 2000) 1 2 0 5000 10
    (fun a => a % 251) (by decide) (by decide) (by decide) (by decide) (by decide)
    (by decide) (by decide) (by decide)
    (by intro a h1 h2; norm_num [MAP2] at h2 ⊢; omega)
  exact ⟨h.1 5002 99 1005 (by decide) (by decide) (by decide) (by decide),
    (h.2 1001 99 1 (by decide) (by decide) (by decide)).trans (by decide)⟩

/-- C8: a successful read-write `__map2_take` (valid indices, wait
succeeded, non-NULL cell pointer) returns the pointer aliasing the
backing buffer at exactly the target cell, leaves memory unchanged, and
keeps the lock held; the `map2_readwrite_trycatch` macro then runs the
success block with the lock held and releases it via `__map2_drop` only
afterwards. -/
theorem C8_readwrite_alias_and_lock_hold (m : map2_t) (row column key : Int)
    (dst : Nat) (tout : Nat) (mem : Nat → Nat)
    (hr0 : 0 ≤ row) (hr1 : row < m.rows)
    (hc0 : 0 ≤ column) (hc1 : column < m.columns)
    (hk0 : 0 ≤ key) (hk1 : key < m.keys)
    (hsrc : map2_ptr m.data (map2_pos m row column) ≠ 0) :
    (__map2_take (some m) row column key dst tout
        map2_operation_t.MAP2_OP_READWRITE mem true).ret =
      map2_ptr m.data ((column + m.columns * row) * m.field_size) ∧
    (__map2_take (some m) row column key dst tout
        map2_operation_t.MAP2_OP_READWRITE mem true).mem = mem ∧
    (__map2_take (some m) row column key dst tout
        map2_operation_t.MAP2_OP_READWRITE mem true).heldAtReturn = true ∧
    (__map2_take (some m) row column key dst tout
        map2_operation_t.MAP2_OP_READWRITE mem true).released = false ∧
    (map2_readwrite_trycatch (some m) row column key dst tout mem true).ranFnc = true ∧
    (map2_readwrite_trycatch (some m) row column key dst tout mem true).heldDuringFnc = true ∧
    (map2_readwrite_trycatch (some m) row column key dst tout mem true).heldAtEnd = false := by
  have hval : ¬(row < 0 ∨ m.rows ≤ row ∨ column < 0 ∨ m.columns ≤ column) := by omega
  have hkey : ¬(key < 0 ∨ m.keys ≤ key) := by omega
  have hspec := __map2_take_readwrite_spec m row column key dst tout mem hval hkey hsrc
  have hdrop := __map2_drop_valid m row column key hval hkey
  have hsrc2 : map2_ptr m.data ((column + m.columns * row) * m.field_size) ≠ 0 := hsrc
  refine ⟨?_, ?_, ?_, ?_, ?_, ?_, ?_⟩ <;>
    simp [map2_readwrite_trycatch, hspec, hdrop, take_result.heldAtReturn, hsrc, hsrc2,
      map2_pos]

/-- Witness for C8 on a concrete 2x3 grid: the returned pointer is the
cell address 1020 and the macro ends with the lock released. -/
theorem C8_witness :
    (__map2_take (some (MAP2 1000 4 2 3 1 2000)) 1 2 0 5000 10
        map2_operation_t.MAP2_OP_READWRITE (fun a => a % 251) true).ret = 1020 ∧
    (map2_readwrite_trycatch (some (MAP2 1000 4 2 3 1 2000)) 1 2 0 5000 10
        (fun a => a % 251) true).ranFnc = true ∧
    (map2_readwrite_trycatch (some (MAP2 1000 4 2 3 1 2000)) 1 2 0 5000 10
        (fun a => a % 251) true).heldDuringFnc = true ∧
    (map2_readwrite_trycatch (some (MAP2 1000 4 2 3 1 2000)) 1 2 0 5000 10
        (fun a => a % 251) true).heldAtEnd = false := by
  have h := C8_readwrite_alias_and_lock_hold (MAP2 1000 4 2 3 1 2000) 1 2 0 5000 10
    (fun a => a % 251) (by decide) (by decide) (by decide) (by decide) (by decide)
    (by decide) (by decide)
  exact ⟨h.1.trans (by decide), h.2.2.2.2.1, h.2.2.2.2.2.1, h.2.2.2.2.2.2⟩

/-- C9: for a map created by the `MAP2` macro (so
`data_size = nrows * ncolumns * field_size`) and validated indices, the
byte offset computed by `map2_pos` plus one whole cell stays inside the
backing buffer. -/
theorem C9_cell_access_in_bounds (dataAddr : Nat)
    (field_size nrows ncolumns nkeys : Int) (mutAddr : Nat) (row column : Int)
    (hfs : 0 ≤ field_size) (_hr0 : 0 ≤ row) (hr1 : row < nrows)
    (hc0 : 0 ≤ column) (hc1 : column < ncolumns) :
    map2_pos (MAP2 dataAddr field_size nrows ncolumns nkeys mutAddr) row column +
        field_size ≤
      (MAP2 dataAddr field_size nrows ncolumns nkeys mutAddr).data_size := by
  show (column + ncolumns * row) * field_size + field_size ≤
    nrows * ncolumns * field_size
  have h2 : column + ncolumns * row + 1 ≤ ncolumns * nrows := by
    nlinarith [mul_nonneg (by omega : (0:Int) ≤ ncolumns)
      (by omega : (0:Int) ≤ nrows - 1 - row)]
  calc (column + ncolumns * row) * field_size + field_size
      = (column + ncolumns * row + 1) * field_size := by ring
    _ ≤ (ncolumns * nrows) * field_size := mul_le_mul_of_nonneg_right h2 hfs
    _ = nrows * ncolumns * field_size := by ring

/-- Witness for C9 on a concrete 2x3 grid of 4-byte cells: offset 20
plus cell size 4 stays within the 24-byte buffer. -/
theorem C9_witness :
    map2_pos (MAP2 1000 4 2 3 1 2000) 1 2 + 4 ≤ (MAP2 1000 4 2 3 1 2000).data_size :=
  C9_cell_access_in_bounds 1000 4 2 3 1 2000 1 2
    (by decide) (by decide) (by decide) (by decide) (by decide)

/-- C10: for `columns ≥ 1` and a linear cell index `i` in
`[0, rows * columns)`, the item-position macros invert the row-major
layout: `map2_item_row` gives `i / columns`, `map2_item_column` gives
`i % columns`, and `map2_pos` of that pair is the byte offset
`i * field_size`. -/
theorem C10_item_roundtrip (m : map2_t) (i : Int)
    (hc : 1 ≤ m.columns) (hi0 : 0 ≤ i) (_hi1 : i < m.rows * m.columns) :
    map2_item_row m i = i / m.columns ∧
    map2_item_column m i = i % m.columns ∧
    map2_pos m (map2_item_row m i) (map2_item_column m i) = i * m.field_size := by
  have hc0 : (0:Int) ≤ m.columns := by omega
  have hrow : map2_item_row m i = i / m.columns := by
    unfold map2_item_row
    exact Int.tdiv_eq_ediv hi0 hc0
  have hcol : map2_item_column m i = i % m.columns := by
    unfold map2_item_column
    exact Int.tmod_eq_emod hi0 hc0
  refine ⟨hrow, hcol, ?_⟩
  rw [hrow, hcol]
  show (i % m.columns + m.columns * (i / m.columns)) * m.field_size = i * m.field_size
  rw [Int.emod_add_ediv i m.columns]

/-- Witness for C10 on a 4x3 grid with linear index 7: row 2, column 1,
byte offset `7 * field_size`. -/
theorem C10_witness :
    map2_item_row (MAP2 1000 4 4 3 1 2000) 7 = 7 / 3 ∧
    map2_item_column (MAP2 1000 4 4 3 1 2000) 7 = 7 % 3 ∧
    map2_pos (MAP2 1000 4 4 3 1 2000)
        (map2_item_row (MAP2 1000 4 4 3 1 2000) 7)
        (map2_item_column (MAP2 1000 4 4 3 1 2000) 7) =
      7 * (MAP2 1000 4 4 3 1 2000).field_size :=
  C10_item_roundtrip (MAP2 1000 4 4 3 1 2000) 7 (by decide) (by decide) (by decide)
